import Mathlib

/-!
Shallow embedding of the metrics sampling and rolling-history engine of this
repository: class `SystemMonitor` in `app/core/system_monitor.py` and the
alert-evaluation logic of class `Dashboard` in `app/ui/dashboard.py`.

Modelling conventions:
- Python floats are modelled as `ℚ`; the cumulative byte counters returned by
  `psutil.net_io_counters()` are Python ints, modelled as `ℤ`.
- Every `psutil` reading that a sampling cycle performs is an input to the
  cycle.  A reading that raises is modelled as `none`; the functions return
  `(state, raised)` where `raised = true` means the Python call raised and the
  remaining statements of the method body did not run (the state component
  holds the mutations already performed before the raise).
- Attributes that `__init__` (lines 17-35) never assigns are `Option` fields
  initialised to `none`; reading such a field while it is `none` is Python's
  `AttributeError`.  Note that the block at lines 212-230 of
  `system_monitor.py` which assigns `prev_net_io`, `prev_net_time`,
  `frame_count` and `last_frame_time` is unreachable: it sits after the
  `return` statement of `get_process_list`.
-/

/-- A `psutil.net_io_counters()` reading: cumulative byte counters. -/
structure NetCounters where
  bytes_recv : ℤ
  bytes_sent : ℤ
deriving DecidableEq, Repr

/-- The provider readings consumed by one sampling cycle.  `none` models the
underlying `psutil` call raising.  `now` is the `time.time()` reading taken at
the network section (line 303) and `now2` the one taken at the FPS section
(line 323); `fps_random` is the `np.random.randint(30, 120)` draw used by
`update_data` (line 108). -/
structure SampleInput where
  cpu_percent : Option ℚ
  ram_percent : Option ℚ
  disk_percent : Option ℚ
  net : Option NetCounters
  fps_random : ℚ
  now : ℚ
  now2 : ℚ
deriving DecidableEq, Repr

/-- A registered update callback: an identity plus whether invoking it
raises. -/
structure Callback where
  ident : Nat
  raises : Bool
deriving DecidableEq, Repr

/-- The attribute state of a `SystemMonitor` object. -/
structure MonitorState where
  history_size : Nat
  running : Bool
  update_interval : ℚ
  update_callbacks : List Callback
  cpu_history : List ℚ
  ram_history : List ℚ
  disk_history : List ℚ
  net_recv_history : List ℚ
  net_sent_history : List ℚ
  fps_history : List ℚ
  cpu_percent : Option ℚ
  ram_percent : Option ℚ
  disk_percent : Option ℚ
  net_recv : Option ℚ
  net_sent : Option ℚ
  fps : Option ℚ
  prev_net_io : Option NetCounters
  prev_net_time : Option ℚ
  frame_count : Option Nat
  last_frame_time : Option ℚ
deriving DecidableEq, Repr

/-- `SystemMonitor.__init__` (lines 17-35).  Only `history_size`, `running`,
`update_interval`, `update_callbacks` and the six history lists are assigned;
everything else stays absent (`none`). -/
def initState (history_size : Nat) : MonitorState :=
  { history_size := history_size
    running := false
    update_interval := 1
    update_callbacks := []
    cpu_history := []
    ram_history := []
    disk_history := []
    net_recv_history := []
    net_sent_history := []
    fps_history := []
    cpu_percent := none
    ram_percent := none
    disk_percent := none
    net_recv := none
    net_sent := none
    fps := none
    prev_net_io := none
    prev_net_time := none
    frame_count := none
    last_frame_time := none }

/-- The append-then-`pop(0)` pattern used by `_update_metrics` (e.g. lines
283-285): `history.append(v); if len(history) > size: history.pop(0)`. -/
def pushPop (size : Nat) (h : List ℚ) (v : ℚ) : List ℚ :=
  let h2 := h ++ [v]
  if size < h2.length then h2.tail else h2

/-- The append-then-slice pattern used by `update_data` (e.g. lines 76-78):
`history.append(v); if len(history) > size: history = history[-size:]`.
Python's `l[-0:]` is `l` itself, hence the `size = 0` case. -/
def pushSlice (size : Nat) (h : List ℚ) (v : ℚ) : List ℚ :=
  let h2 := h ++ [v]
  if size < h2.length then
    if size = 0 then h2 else h2.drop (h2.length - size)
  else h2

/-- The FPS section of `_update_metrics` (lines 321-333).  `frame_count += 1`
raises `AttributeError` when `frame_count` was never assigned; likewise the
read of `last_frame_time`. -/
def fpsSection (inp : SampleInput) (st : MonitorState) : MonitorState × Bool :=
  match st.frame_count with
  | none => (st, true)
  | some fc =>
    let st1 := { st with frame_count := some (fc + 1) }
    match st1.last_frame_time with
    | none => (st1, true)
    | some lft =>
      let time_diff := inp.now2 - lft
      if 1 ≤ time_diff then
        let fpsVal : ℚ := (fc + 1 : ℚ) / time_diff
        (( { st1 with fps := some fpsVal
                      fps_history := pushPop st1.history_size st1.fps_history fpsVal
                      frame_count := some 0
                      last_frame_time := some inp.now2 } ), false)
      else (st1, false)

/-- `SystemMonitor._update_metrics` (lines 279-333).  The sections run in
source order: CPU, RAM, disk, network, FPS; a raising `psutil` call or an
`AttributeError` aborts the rest of the body. -/
def update_metrics (inp : SampleInput) (st : MonitorState) : MonitorState × Bool :=
  match inp.cpu_percent with
  | none => (st, true)
  | some c =>
    let st1 := { st with cpu_percent := some c
                         cpu_history := pushPop st.history_size st.cpu_history c }
    match inp.ram_percent with
    | none => (st1, true)
    | some r =>
      let st2 := { st1 with ram_percent := some r
                            ram_history := pushPop st1.history_size st1.ram_history r }
      match inp.disk_percent with
      | none => (st2, true)
      | some d =>
        let st3 := { st2 with disk_percent := some d
                              disk_history := pushPop st2.history_size st2.disk_history d }
        match inp.net with
        | none => (st3, true)
        | some n =>
          match st3.prev_net_time with
          | none => (st3, true)
          | some pt =>
            let time_diff := inp.now - pt
            if 0 < time_diff then
              match st3.prev_net_io with
              | none => (st3, true)
              | some pio =>
                let recvRate : ℚ := ((n.bytes_recv - pio.bytes_recv : ℤ) : ℚ) / time_diff
                let sentRate : ℚ := ((n.bytes_sent - pio.bytes_sent : ℤ) : ℚ) / time_diff
                let st4 := { st3 with
                  net_recv := some recvRate
                  net_sent := some sentRate
                  net_recv_history := pushPop st3.history_size st3.net_recv_history recvRate
                  net_sent_history := pushPop st3.history_size st3.net_sent_history sentRate }
                fpsSection inp { st4 with prev_net_io := some n, prev_net_time := some inp.now }
            else
              fpsSection inp { st3 with prev_net_io := some n, prev_net_time := some inp.now }

/-- `SystemMonitor.update_data` (lines 72-111).  Only the disk section is
wrapped in `try/except`; on failure it appends the sentinel `0` *without* the
length trim (line 96), and the cycle continues. -/
def update_data (inp : SampleInput) (st : MonitorState) : MonitorState × Bool :=
  match inp.cpu_percent with
  | none => (st, true)
  | some c =>
    let st1 := { st with cpu_history := pushSlice st.history_size st.cpu_history c }
    match inp.ram_percent with
    | none => (st1, true)
    | some r =>
      let st2 := { st1 with ram_history := pushSlice st1.history_size st1.ram_history r }
      let st3 :=
        match inp.disk_percent with
        | some d => { st2 with disk_history := pushSlice st2.history_size st2.disk_history d }
        | none => { st2 with disk_history := st2.disk_history ++ [0] }
      match inp.net with
      | none => (st3, true)
      | some n =>
        let st4 := { st3 with
          net_recv_history :=
            pushSlice st3.history_size st3.net_recv_history ((n.bytes_recv : ℚ) / 1024 / 1024)
          net_sent_history :=
            pushSlice st3.history_size st3.net_sent_history ((n.bytes_sent : ℚ) / 1024 / 1024) }
        (( { st4 with fps_history := pushSlice st4.history_size st4.fps_history inp.fps_random } ),
         false)

/-- `SystemMonitor.stop` (lines 240-244; the earlier definition at lines 68-70
is shadowed and has the same effect on attribute state).  The `join` on the
monitor thread does not touch any attribute. -/
def stop (st : MonitorState) : MonitorState :=
  { st with running := false }

/-- `SystemMonitor.get_cpu_percent` (lines 113-117). -/
def get_cpu_percent (st : MonitorState) : ℚ :=
  match st.cpu_history.getLast? with
  | none => 0
  | some v => v

/-- `SystemMonitor.get_ram_percent` (lines 119-123). -/
def get_ram_percent (st : MonitorState) : ℚ :=
  match st.ram_history.getLast? with
  | none => 0
  | some v => v

/-- `SystemMonitor.get_disk_percent` (lines 132-136). -/
def get_disk_percent (st : MonitorState) : ℚ :=
  match st.disk_history.getLast? with
  | none => 0
  | some v => v

/-- `SystemMonitor.get_network_usage` (lines 150-154). -/
def get_network_usage (st : MonitorState) : ℚ × ℚ :=
  ((match st.net_recv_history.getLast? with | none => 0 | some v => v),
   (match st.net_sent_history.getLast? with | none => 0 | some v => v))

/-- `SystemMonitor.get_fps` (lines 179-183). -/
def get_fps (st : MonitorState) : ℚ :=
  match st.fps_history.getLast? with
  | none => 0
  | some v => v

/-- Invoking one callback: it either returns or raises. -/
def runCallback (cb : Callback) : Except Unit Unit :=
  if cb.raises then Except.error () else Except.ok ()

/-- `SystemMonitor._notify_update` (lines 261-267): invoke every registered
callback in order, catching each exception individually.  Returns the ordered
trace of invoked callback identities and the number of logged errors. -/
def notify_update : List Callback → List Nat × Nat
  | [] => ([], 0)
  | cb :: rest =>
    let r := runCallback cb
    let rec_result := notify_update rest
    (cb.ident :: rec_result.1,
     (match r with | Except.ok _ => 0 | Except.error _ => 1) + rec_result.2)

/-- `SystemMonitor._monitor_loop` (lines 269-277), driven by a finite trace of
per-cycle inputs.  Each iteration checks `running`, then runs
`_update_metrics` and `_notify_update` inside `try/except`: if
`_update_metrics` raises, the notification is skipped (`none`) and the loop
continues with the next cycle. -/
def monitor_loop (inps : List SampleInput) (st : MonitorState) :
    MonitorState × List (Option (List Nat)) :=
  match inps with
  | [] => (st, [])
  | inp :: rest =>
    if st.running then
      let step := update_metrics inp st
      let cycle : Option (List Nat) :=
        if step.2 then none else some (notify_update step.1.update_callbacks).1
      let tail_result := monitor_loop rest step.1
      (tail_result.1, cycle :: tail_result.2)
    else (st, [])

/-!
Heap-level view of the history buffers, used to reason about aliasing.  Python
lists are mutable objects: an attribute such as `self.cpu_history` holds a
reference into the heap, and `append`/`pop(0)` mutate the referenced list in
place.  `HeapState` makes the references explicit; scalar attributes that hold
immutable values are omitted except for the ones `_update_metrics` reads.
-/

/-- Heap update at one address. -/
def writeHeap (h : Nat → List ℚ) (a : Nat) (v : List ℚ) : Nat → List ℚ :=
  fun x => if x = a then v else h x

/-- Object state of a `SystemMonitor` with the list identities explicit. -/
structure HeapState where
  heap : Nat → List ℚ
  history_size : Nat
  cpuAddr : Nat
  ramAddr : Nat
  diskAddr : Nat
  netRecvAddr : Nat
  netSentAddr : Nat
  fpsAddr : Nat
  prev_net_io : Option NetCounters
  prev_net_time : Option ℚ
  frame_count : Option Nat
  last_frame_time : Option ℚ

/-- In-place `history.append(v); if len(history) > size: history.pop(0)` on
the list object at address `a`. -/
def heapPushPop (st : HeapState) (a : Nat) (v : ℚ) : HeapState :=
  { st with heap := writeHeap st.heap a (pushPop st.history_size (st.heap a) v) }

/-- The FPS section of `_update_metrics` (lines 321-333), heap view. -/
def fpsSectionH (inp : SampleInput) (st : HeapState) : HeapState × Bool :=
  match st.frame_count with
  | none => (st, true)
  | some fc =>
    let st1 := { st with frame_count := some (fc + 1) }
    match st1.last_frame_time with
    | none => (st1, true)
    | some lft =>
      let time_diff := inp.now2 - lft
      if 1 ≤ time_diff then
        let fpsVal : ℚ := (fc + 1 : ℚ) / time_diff
        (( { heapPushPop st1 st1.fpsAddr fpsVal with
              frame_count := some 0
              last_frame_time := some inp.now2 } ), false)
      else (st1, false)

/-- `SystemMonitor._update_metrics` (lines 279-333), heap view: each history
mutation happens in place at the buffer's address. -/
def update_metricsH (inp : SampleInput) (st : HeapState) : HeapState × Bool :=
  match inp.cpu_percent with
  | none => (st, true)
  | some c =>
    let st1 := heapPushPop st st.cpuAddr c
    match inp.ram_percent with
    | none => (st1, true)
    | some r =>
      let st2 := heapPushPop st1 st1.ramAddr r
      match inp.disk_percent with
      | none => (st2, true)
      | some d =>
        let st3 := heapPushPop st2 st2.diskAddr d
        match inp.net with
        | none => (st3, true)
        | some n =>
          match st3.prev_net_time with
          | none => (st3, true)
          | some pt =>
            let time_diff := inp.now - pt
            if 0 < time_diff then
              match st3.prev_net_io with
              | none => (st3, true)
              | some pio =>
                let recvRate : ℚ := ((n.bytes_recv - pio.bytes_recv : ℤ) : ℚ) / time_diff
                let sentRate : ℚ := ((n.bytes_sent - pio.bytes_sent : ℤ) : ℚ) / time_diff
                let st4 := heapPushPop (heapPushPop st3 st3.netRecvAddr recvRate)
                             st3.netSentAddr sentRate
                fpsSectionH inp { st4 with prev_net_io := some n, prev_net_time := some inp.now }
            else
              fpsSectionH inp { st3 with prev_net_io := some n, prev_net_time := some inp.now }

/-- `SystemMonitor.get_cpu_info` (lines 335-345): the dict entry
`cpu_info['history'] = self.cpu_history` stores the list reference itself, not
a copy.  This definition returns that reference. -/
def get_cpu_info_history (st : HeapState) : Nat :=
  st.cpuAddr

/-- `SystemMonitor.get_network_info` (lines 375-384): the entry
`net_info['recv_history'] = self.net_recv_history` is again the live list
reference. -/
def get_network_info_recv_history (st : HeapState) : Nat :=
  st.netRecvAddr

/-!  Alert evaluation: `Dashboard` in `app/ui/dashboard.py`. -/

/-- The four monitored metric kinds of `Dashboard.check_alerts`. -/
inductive MetricKind
  | cpu
  | ram
  | disk
  | temp
deriving DecidableEq, Repr

/-- One formatted alert message.  In the source the message is an f-string
built from the to-the-second timestamp, a metric-specific template
(`"... Alerta: CPU al {v:.1f}%"` etc.) and the `:.1f`-formatted value; since
the four templates are pairwise distinct and appear between the timestamp and
the value, two such strings are equal exactly when the timestamp, the metric
kind and the formatted value text coincide.  `AlertMsg` records those three
components, so equality of `AlertMsg` is equality of the message strings. -/
structure AlertMsg where
  time : String
  metric : MetricKind
  value_text : String
deriving DecidableEq, Repr

/-- `Dashboard.alert_thresholds` mapping (lines 57-63). -/
structure AlertThresholds where
  cpu : ℚ
  ram : ℚ
  disk : ℚ
  temp : ℚ
deriving DecidableEq, Repr

/-- Default thresholds from `Dashboard.__init__`: cpu 80, ram 80, disk 90,
temp 80. -/
def defaultThresholds : AlertThresholds :=
  { cpu := 80, ram := 80, disk := 90, temp := 80 }

/-- One metric block of `Dashboard.check_alerts` (e.g. lines 454-459):
`if value > threshold: if msg not in active_alerts: active_alerts.append(msg)`.
The listbox insertion mutates only the widget, not `active_alerts`. -/
def alertStep (threshold v : ℚ) (m : AlertMsg) (active : List AlertMsg) : List AlertMsg :=
  if threshold < v then
    if m ∈ active then active else active ++ [m]
  else active

/-- `Dashboard.check_alerts` (lines 450-484): the CPU, RAM, disk and
temperature blocks run in that order over the shared `active_alerts` list,
all using the same `time.strftime` timestamp `t`.  `fmt` models the `:.1f`
value formatting. -/
def check_alerts (fmt : ℚ → String) (th : AlertThresholds) (t : String)
    (cpu ram disk temp : ℚ) (active : List AlertMsg) : List AlertMsg :=
  let a1 := alertStep th.cpu cpu ⟨t, MetricKind.cpu, fmt cpu⟩ active
  let a2 := alertStep th.ram ram ⟨t, MetricKind.ram, fmt ram⟩ a1
  let a3 := alertStep th.disk disk ⟨t, MetricKind.disk, fmt disk⟩ a2
  alertStep th.temp temp ⟨t, MetricKind.temp, fmt temp⟩ a3

/-!  Process listing: `SystemMonitor.get_processes` (lines 397-428). -/

/-- One successfully-read process record from `psutil.process_iter`. -/
structure ProcRec where
  pid : Nat
  name : String
  username : String
  cpu_percent : ℚ
  memory_percent : ℚ
deriving DecidableEq, Repr

/-- Insertion step of a stable descending sort by `key`: the element `x`
(earlier in the original list than everything in the accumulator) is placed
before the first element whose key is not larger. -/
def insertDesc (key : ProcRec → ℚ) (x : ProcRec) : List ProcRec → List ProcRec
  | [] => [x]
  | y :: ys => if key y ≤ key x then x :: y :: ys else y :: insertDesc key x ys

/-- Python's `list.sort(key=..., reverse=True)` (lines 423-426) is a stable
descending sort: elements with equal keys keep their original relative order.
`sortDesc` is the standard functional model of such a sort. -/
def sortDesc (key : ProcRec → ℚ) : List ProcRec → List ProcRec
  | [] => []
  | x :: xs => insertDesc key x (sortDesc key xs)

/-- `SystemMonitor.get_processes(sort_by, limit)`: sorts by
`memory_percent` when `sort_by == "memory"`, otherwise by `cpu_percent`, and
returns the first `limit` records (`processes[:limit]`). -/
def get_processes (sort_by : String) (limit : Nat) (procs : List ProcRec) : List ProcRec :=
  (if sort_by = "memory" then sortDesc (fun p => p.memory_percent) procs
   else sortDesc (fun p => p.cpu_percent) procs).take limit

/-!  Concrete fixtures used by the claim theorems and witnesses. -/

/-- C1 fixture: a cycle whose `psutil.disk_usage` call fails (on this
repository's hard-coded Windows path it fails on any other platform) while
the other readings succeed. -/
def c1inp : SampleInput :=
  { cpu_percent := some 10, ram_percent := some 20, disk_percent := none
    net := some ⟨0, 0⟩, fps_random := 60, now := 0, now2 := 0 }

/-- C2 fixture: a first cycle in which every provider reading succeeds. -/
def c2inp : SampleInput :=
  { cpu_percent := some 10, ram_percent := some 20, disk_percent := some 30
    net := some ⟨1024, 2048⟩, fps_random := 60, now := 100, now2 := 100 }

/-- C3 witness fixture: a state that does hold a previous counter snapshot. -/
def w3st : MonitorState :=
  { initState 60 with
      prev_net_io := some ⟨0, 0⟩, prev_net_time := some 0
      frame_count := some 0, last_frame_time := some 0 }

/-- C3 witness fixture: a cycle two seconds later with grown counters. -/
def w3inp : SampleInput :=
  { cpu_percent := some 1, ram_percent := some 2, disk_percent := some 3
    net := some ⟨1024, 512⟩, fps_random := 0, now := 2, now2 := 0 }

/-- C4 fixture: a state holding the snapshot (100, 100) taken at time 0. -/
def c4st : MonitorState :=
  { initState 60 with
      prev_net_io := some ⟨100, 100⟩, prev_net_time := some 0
      frame_count := some 0, last_frame_time := some 0 }

/-- C4 fixture: one second later both counters have wrapped to 50. -/
def c4inp : SampleInput :=
  { cpu_percent := some 1, ram_percent := some 2, disk_percent := some 3
    net := some ⟨50, 50⟩, fps_random := 0, now := 1, now2 := 0 }

/-- C5 fixture: a cycle where exactly the disk reading fails. -/
def c5inp : SampleInput :=
  { cpu_percent := some 1, ram_percent := some 2, disk_percent := none
    net := some ⟨1048576, 2097152⟩, fps_random := 60, now := 1, now2 := 1 }

/-- C7 fixture: a monitor whose six buffers live at addresses 0-5 and whose
CPU history currently holds `[5]`. -/
def c7st : HeapState :=
  { heap := writeHeap (fun _ => []) 0 [5]
    history_size := 60
    cpuAddr := 0, ramAddr := 1, diskAddr := 2
    netRecvAddr := 3, netSentAddr := 4, fpsAddr := 5
    prev_net_io := none, prev_net_time := none
    frame_count := none, last_frame_time := none }

/-- C7 fixture: the next sampling cycle's readings. -/
def c7inp : SampleInput :=
  { cpu_percent := some 42, ram_percent := some 7, disk_percent := some 9
    net := some ⟨0, 0⟩, fps_random := 0, now := 0, now2 := 0 }

/-- C8 witness fixture: an always-raising observer registered before a
well-behaved one. -/
def w8cbs : List Callback :=
  [⟨1, true⟩, ⟨2, false⟩]

/-- C8 witness fixture: a running monitor with those two observers. -/
def w8st : MonitorState :=
  { initState 60 with running := true, update_callbacks := w8cbs }

/-- C9 fixture: the 10-cpu record. -/
def exProcA : ProcRec :=
  { pid := 1, name := "a", username := "u", cpu_percent := 10, memory_percent := 0 }

/-- C9 fixture: the 50-cpu record. -/
def exProcB : ProcRec :=
  { pid := 2, name := "b", username := "u", cpu_percent := 50, memory_percent := 0 }

/-- C9 fixture: the 30-cpu record. -/
def exProcC : ProcRec :=
  { pid := 3, name := "c", username := "u", cpu_percent := 30, memory_percent := 0 }

/-- Descending-by-key order refined by original enumeration order (`pid` is
the enumeration tag): the relation every stable descending sort output
satisfies pairwise. -/
def keyLex (key : ProcRec → ℚ) (a b : ProcRec) : Prop :=
  key b < key a ∨ (key a = key b ∧ a.pid < b.pid)

/-!  Helper lemmas. -/

theorem fpsSection_net_recv (inp : SampleInput) (st : MonitorState) :
    (fpsSection inp st).1.net_recv_history = st.net_recv_history := by
  unfold fpsSection
  rcases hfc : st.frame_count with _ | fc <;> simp [hfc]
  rcases hlft : st.last_frame_time with _ | lft <;> simp [hlft]
  split <;> simp

theorem fpsSection_net_sent (inp : SampleInput) (st : MonitorState) :
    (fpsSection inp st).1.net_sent_history = st.net_sent_history := by
  unfold fpsSection
  rcases hfc : st.frame_count with _ | fc <;> simp [hfc]
  rcases hlft : st.last_frame_time with _ | lft <;> simp [hlft]
  split <;> simp

theorem fpsSection_callbacks (inp : SampleInput) (st : MonitorState) :
    (fpsSection inp st).1.update_callbacks = st.update_callbacks := by
  unfold fpsSection
  rcases hfc : st.frame_count with _ | fc <;> simp [hfc]
  rcases hlft : st.last_frame_time with _ | lft <;> simp [hlft]
  split <;> simp

theorem fpsSection_running (inp : SampleInput) (st : MonitorState) :
    (fpsSection inp st).1.running = st.running := by
  unfold fpsSection
  rcases hfc : st.frame_count with _ | fc <;> simp [hfc]
  rcases hlft : st.last_frame_time with _ | lft <;> simp [hlft]
  split <;> simp

theorem update_metrics_callbacks (inp : SampleInput) (st : MonitorState) :
    (update_metrics inp st).1.update_callbacks = st.update_callbacks := by
  unfold update_metrics
  rcases hc : inp.cpu_percent with _ | c <;> simp [hc]
  rcases hr : inp.ram_percent with _ | r <;> simp [hr]
  rcases hd : inp.disk_percent with _ | d <;> simp [hd]
  rcases hn : inp.net with _ | n <;> simp [hn]
  rcases hpt : st.prev_net_time with _ | pt <;> simp [hpt]
  split
  · rcases hpio : st.prev_net_io with _ | pio <;> simp [hpio, fpsSection_callbacks]
  · simp [fpsSection_callbacks]

theorem update_metrics_running (inp : SampleInput) (st : MonitorState) :
    (update_metrics inp st).1.running = st.running := by
  unfold update_metrics
  rcases hc : inp.cpu_percent with _ | c <;> simp [hc]
  rcases hr : inp.ram_percent with _ | r <;> simp [hr]
  rcases hd : inp.disk_percent with _ | d <;> simp [hd]
  rcases hn : inp.net with _ | n <;> simp [hn]
  rcases hpt : st.prev_net_time with _ | pt <;> simp [hpt]
  split
  · rcases hpio : st.prev_net_io with _ | pio <;> simp [hpio, fpsSection_running]
  · simp [fpsSection_running]

/-- The network section of `_update_metrics`, fully characterised whenever a
previous counter snapshot is present and the CPU, RAM, disk and network
readings succeed: with advanced clock it appends exactly the counter-delta
over time-delta rate to each network history, otherwise it appends nothing. -/
theorem update_metrics_net_histories (st : MonitorState) (inp : SampleInput)
    (c r d : ℚ) (n pio : NetCounters) (pt : ℚ)
    (hc : inp.cpu_percent = some c) (hr : inp.ram_percent = some r)
    (hd : inp.disk_percent = some d) (hn : inp.net = some n)
    (hpt : st.prev_net_time = some pt) (hpio : st.prev_net_io = some pio) :
    (pt < inp.now →
      (update_metrics inp st).1.net_recv_history
        = pushPop st.history_size st.net_recv_history
            (((n.bytes_recv - pio.bytes_recv : ℤ) : ℚ) / (inp.now - pt))
      ∧ (update_metrics inp st).1.net_sent_history
        = pushPop st.history_size st.net_sent_history
            (((n.bytes_sent - pio.bytes_sent : ℤ) : ℚ) / (inp.now - pt)))
  ∧ (inp.now ≤ pt →
      (update_metrics inp st).1.net_recv_history = st.net_recv_history
      ∧ (update_metrics inp st).1.net_sent_history = st.net_sent_history) := by
  unfold update_metrics
  simp only [hc, hr, hd, hn, hpt, hpio]
  constructor
  · intro hlt
    have h0 : (0 : ℚ) < inp.now - pt := by linarith
    rw [if_pos h0]
    simp [fpsSection_net_recv, fpsSection_net_sent]
  · intro hle
    have h0 : ¬ (0 : ℚ) < inp.now - pt := by linarith
    rw [if_neg h0]
    simp [fpsSection_net_recv, fpsSection_net_sent]

theorem mem_insertDesc (key : ProcRec → ℚ) (x : ProcRec) (l : List ProcRec) (a : ProcRec) :
    a ∈ insertDesc key x l ↔ a = x ∨ a ∈ l := by
  induction l with
  | nil => simp [insertDesc]
  | cons y ys ih =>
    unfold insertDesc
    by_cases h : key y ≤ key x
    · rw [if_pos h]
      simp [List.mem_cons]
    · rw [if_neg h]
      simp [List.mem_cons, ih]
      tauto

theorem mem_sortDesc (key : ProcRec → ℚ) (l : List ProcRec) (a : ProcRec) :
    a ∈ sortDesc key l ↔ a ∈ l := by
  induction l with
  | nil => simp [sortDesc]
  | cons x xs ih =>
    unfold sortDesc
    rw [mem_insertDesc, ih, List.mem_cons]

theorem keyLex_le (key : ProcRec → ℚ) (a b : ProcRec) (h : keyLex key a b) :
    key b ≤ key a := by
  rcases h with h | h
  · exact le_of_lt h
  · exact le_of_eq h.1.symm

theorem pairwise_keyLex_insertDesc (key : ProcRec → ℚ) (x : ProcRec) (m : List ProcRec)
    (hm : m.Pairwise (keyLex key)) (hx : ∀ y ∈ m, x.pid < y.pid) :
    (insertDesc key x m).Pairwise (keyLex key) := by
  induction m with
  | nil => simp [insertDesc]
  | cons y ys ih =>
    rcases List.pairwise_cons.mp hm with ⟨hy, hys⟩
    unfold insertDesc
    by_cases h : key y ≤ key x
    · rw [if_pos h]
      refine List.Pairwise.cons ?_ hm
      intro z hz
      rcases List.mem_cons.mp hz with rfl | hz
      · rcases lt_or_eq_of_le h with hlt | heq
        · exact Or.inl hlt
        · exact Or.inr ⟨heq.symm, hx z (List.mem_cons_self z ys)⟩
      · have hzy : key z ≤ key y := keyLex_le key y z (hy z hz)
        rcases lt_or_eq_of_le (le_trans hzy h) with hlt | heq
        · exact Or.inl hlt
        · exact Or.inr ⟨heq.symm, hx z (List.mem_cons_of_mem y hz)⟩
    · rw [if_neg h]
      push_neg at h
      refine List.Pairwise.cons ?_ (ih hys (fun z hz => hx z (List.mem_cons_of_mem y hz)))
      intro z hz
      rcases (mem_insertDesc key x ys z).mp hz with rfl | hz
      · exact Or.inl h
      · exact hy z hz

theorem pairwise_keyLex_sortDesc (key : ProcRec → ℚ) (l : List ProcRec)
    (h : l.Pairwise (fun a b => a.pid < b.pid)) :
    (sortDesc key l).Pairwise (keyLex key) := by
  induction l with
  | nil => simp [sortDesc]
  | cons x xs ih =>
    rcases List.pairwise_cons.mp h with ⟨hx, hxs⟩
    unfold sortDesc
    refine pairwise_keyLex_insertDesc key x (sortDesc key xs) (ih hxs) ?_
    intro y hy
    exact hx y ((mem_sortDesc key xs y).mp hy)

theorem heapPushPop_heap_self (st : HeapState) (a : Nat) (v : ℚ) :
    (heapPushPop st a v).heap a = pushPop st.history_size (st.heap a) v := by
  simp [heapPushPop, writeHeap]

theorem heapPushPop_heap_ne (st : HeapState) (a b : Nat) (v : ℚ) (h : b ≠ a) :
    (heapPushPop st a v).heap b = st.heap b := by
  simp [heapPushPop, writeHeap, h]

theorem fpsSectionH_heap_ne (inp : SampleInput) (st : HeapState) (b : Nat)
    (h : b ≠ st.fpsAddr) :
    (fpsSectionH inp st).1.heap b = st.heap b := by
  unfold fpsSectionH
  rcases hfc : st.frame_count with _ | fc <;> simp [hfc]
  rcases hlft : st.last_frame_time with _ | lft <;> simp [hlft]
  split <;> simp [heapPushPop, writeHeap, h]

/-- Every cycle of `_monitor_loop` on a running monitor is processed: the
per-cycle record is `none` exactly when `_update_metrics` raised (the
notification is skipped by the `except` handler), and otherwise the full
notification trace of the registered callbacks; nothing an observer does ends
the loop early. -/
theorem monitor_loop_cycles (inps : List SampleInput) (st : MonitorState)
    (hrun : st.running = true) :
    (monitor_loop inps st).2.length = inps.length
  ∧ ∀ cyc ∈ (monitor_loop inps st).2,
      cyc = none ∨ cyc = some ((notify_update st.update_callbacks).1) := by
  induction inps generalizing st with
  | nil => simp [monitor_loop]
  | cons inp rest ih =>
    have hrun1 : (update_metrics inp st).1.running = true := by
      rw [update_metrics_running]; exact hrun
    have hcb1 : (update_metrics inp st).1.update_callbacks = st.update_callbacks :=
      update_metrics_callbacks inp st
    rcases ih (update_metrics inp st).1 hrun1 with ⟨hlen, hcyc⟩
    unfold monitor_loop
    rw [if_pos hrun]
    constructor
    · simpa using hlen
    · intro cyc hc
      rcases List.mem_cons.mp hc with rfl | hc
      · by_cases hrsd : (update_metrics inp st).2 <;> simp [hrsd, hcb1]
      · rcases hcyc cyc hc with h | h
        · exact Or.inl h
        · rw [hcb1] at h
          exact Or.inr h

/-!  Claim theorems. -/

/-- C1: the claim asserts `len(history) <= history_size` for every stream
after every sampling cycle.  The code violates it: the `except` branch of the
disk section of `update_data` (line 96) appends the sentinel `0` without the
length trim, so on a monitor with `history_size = 1` two cycles whose disk
reading fails leave `disk_history` with the two appended sentinels — length
`2 > history_size`. -/
theorem C1_disk_history_exceeds_capacity :
    (update_data c1inp (update_data c1inp (initState 1)).1).1.disk_history = [0, 0]
  ∧ 1 < (update_data c1inp (update_data c1inp (initState 1)).1).1.disk_history.length := by
  decide

/-- C2: the claim says the first cycle after `start()` stores the current
counter snapshot and skips rate emission while non-rate streams update.  On
the first `_update_metrics` cycle of a fresh monitor the CPU, RAM and disk
histories do update and no rate stream is appended, but the cycle raises
`AttributeError` at the read of `prev_net_time` (line 304) — the snapshot
assignment at lines 318-319 is never reached, so `prev_net_io` and
`prev_net_time` remain absent after the cycle. -/
theorem C2_first_cycle_raises_without_storing_snapshot :
    (update_metrics c2inp (initState 60)).2 = true
  ∧ (update_metrics c2inp (initState 60)).1.net_recv_history = []
  ∧ (update_metrics c2inp (initState 60)).1.net_sent_history = []
  ∧ (update_metrics c2inp (initState 60)).1.fps_history = []
  ∧ (update_metrics c2inp (initState 60)).1.prev_net_time = none
  ∧ (update_metrics c2inp (initState 60)).1.prev_net_io = none
  ∧ (update_metrics c2inp (initState 60)).1.cpu_history = [10]
  ∧ (update_metrics c2inp (initState 60)).1.ram_history = [20]
  ∧ (update_metrics c2inp (initState 60)).1.disk_history = [30] := by
  decide

/-- C3: in a sampling cycle holding a previous counter snapshot
`(pio, pt)` and reading `(n, inp.now)`, if `inp.now > pt` the value appended
to each network rate history is `(curr - prev) / (curr_time - prev_time)`,
and if `inp.now <= pt` nothing is appended to either rate stream. -/
theorem C3_rate_formula_and_clock_skip (st : MonitorState) (inp : SampleInput)
    (c r d : ℚ) (n pio : NetCounters) (pt : ℚ)
    (hc : inp.cpu_percent = some c) (hr : inp.ram_percent = some r)
    (hd : inp.disk_percent = some d) (hn : inp.net = some n)
    (hpt : st.prev_net_time = some pt) (hpio : st.prev_net_io = some pio) :
    (pt < inp.now →
      (update_metrics inp st).1.net_recv_history
        = pushPop st.history_size st.net_recv_history
            (((n.bytes_recv - pio.bytes_recv : ℤ) : ℚ) / (inp.now - pt))
      ∧ (update_metrics inp st).1.net_sent_history
        = pushPop st.history_size st.net_sent_history
            (((n.bytes_sent - pio.bytes_sent : ℤ) : ℚ) / (inp.now - pt)))
  ∧ (inp.now ≤ pt →
      (update_metrics inp st).1.net_recv_history = st.net_recv_history
      ∧ (update_metrics inp st).1.net_sent_history = st.net_sent_history) :=
  update_metrics_net_histories st inp c r d n pio pt hc hr hd hn hpt hpio

/-- C3 witness: with snapshot `(0, 0)` at time `0` and reading
`(1024, 512)` at time `2`, the appended rates are `512` and `256`. -/
theorem C3_rate_formula_and_clock_skip_witness :
    (update_metrics w3inp w3st).1.net_recv_history = [512]
  ∧ (update_metrics w3inp w3st).1.net_sent_history = [256] := by
  have h := C3_rate_formula_and_clock_skip w3st w3inp 1 2 3 ⟨1024, 512⟩ ⟨0, 0⟩ 0
    rfl rfl rfl rfl rfl rfl
  have h2 := h.1 (by norm_num [w3inp])
  constructor
  · rw [h2.1]; norm_num [w3st, w3inp, initState, pushPop]
  · rw [h2.2]; norm_num [w3st, w3inp, initState, pushPop]

/-- C4 counterexample: the claim says a wrapped counter
(`curr_value < prev_value` with `curr_time > prev_time`) emits no rate sample.
With snapshot `(100, 100)` at time `0` and wrapped reading `(50, 50)` at time
`1`, the cycle appends the negative rate `-50` to `net_recv_history`. -/
theorem C4_wrap_emits_negative_sample :
    c4st.net_recv_history = []
  ∧ (update_metrics c4inp c4st).1.net_recv_history = [-50]
  ∧ ((-50 : ℚ) < 0)
  ∧ c4st.prev_net_io = some ⟨100, 100⟩
  ∧ c4inp.net = some ⟨50, 50⟩ := by
  have h := (update_metrics_net_histories c4st c4inp 1 2 3 ⟨50, 50⟩ ⟨100, 100⟩ 0
    rfl rfl rfl rfl rfl rfl).1 (by norm_num [c4inp])
  refine ⟨rfl, ?_, by norm_num, rfl, rfl⟩
  rw [h.1]
  norm_num [c4st, c4inp, initState, pushPop]

/-- C4 amended: in a cycle with a previous snapshot where the counter wrapped
(`curr < prev`) and the clock advanced, a rate sample IS appended to the
stream, namely the negative value `(curr - prev) / (curr_time - prev_time)`;
the code has no wrap check. -/
theorem C4_wrap_appends_negative_rate (st : MonitorState) (inp : SampleInput)
    (c r d : ℚ) (n pio : NetCounters) (pt : ℚ)
    (hc : inp.cpu_percent = some c) (hr : inp.ram_percent = some r)
    (hd : inp.disk_percent = some d) (hn : inp.net = some n)
    (hpt : st.prev_net_time = some pt) (hpio : st.prev_net_io = some pio)
    (hwrap : n.bytes_recv < pio.bytes_recv) (ht : pt < inp.now) :
    (update_metrics inp st).1.net_recv_history
      = pushPop st.history_size st.net_recv_history
          (((n.bytes_recv - pio.bytes_recv : ℤ) : ℚ) / (inp.now - pt))
  ∧ ((n.bytes_recv - pio.bytes_recv : ℤ) : ℚ) / (inp.now - pt) < 0 := by
  have h := (update_metrics_net_histories st inp c r d n pio pt
    hc hr hd hn hpt hpio).1 ht
  refine ⟨h.1, ?_⟩
  apply div_neg_of_neg_of_pos
  · have : (n.bytes_recv - pio.bytes_recv : ℤ) < 0 := by omega
    exact_mod_cast this
  · linarith

/-- C4 witness: the amended statement instantiated at the wrap fixture. -/
theorem C4_wrap_appends_negative_rate_witness :
    (update_metrics c4inp c4st).1.net_recv_history = [-50] := by
  have h := C4_wrap_appends_negative_rate c4st c4inp 1 2 3 ⟨50, 50⟩ ⟨100, 100⟩ 0
    rfl rfl rfl rfl rfl rfl (by decide) (by norm_num [c4inp])
  rw [h.1]
  norm_num [c4st, c4inp, initState, pushPop]

/-- C5 counterexample: the claim says a failing category records a sentinel
for that stream only while every sibling buffer still updates, logged not
raised.  In `_update_metrics` the disk section has no handler: a failing
`disk_usage` read raises out of the cycle, records no sentinel, and leaves
the network and FPS streams un-updated (only CPU and RAM, which run before
the disk section, updated). -/
theorem C5_update_metrics_disk_failure_aborts_cycle :
    (update_metrics c5inp (initState 60)).2 = true
  ∧ (update_metrics c5inp (initState 60)).1.disk_history = []
  ∧ (update_metrics c5inp (initState 60)).1.net_recv_history = []
  ∧ (update_metrics c5inp (initState 60)).1.net_sent_history = []
  ∧ (update_metrics c5inp (initState 60)).1.fps_history = []
  ∧ (update_metrics c5inp (initState 60)).1.cpu_history = [1]
  ∧ (update_metrics c5inp (initState 60)).1.ram_history = [2] := by
  decide

/-- C5 amended: only `update_data` protects a provider failure, and only for
the disk category: there a failing disk read appends the sentinel `0` to
`disk_history` (without the length trim) and every sibling stream still
updates that cycle, with nothing raised out of the cycle. -/
theorem C5_update_data_disk_sentinel (st : MonitorState) (inp : SampleInput)
    (c r : ℚ) (n : NetCounters)
    (hc : inp.cpu_percent = some c) (hr : inp.ram_percent = some r)
    (hd : inp.disk_percent = none) (hn : inp.net = some n) :
    (update_data inp st).2 = false
  ∧ (update_data inp st).1.disk_history = st.disk_history ++ [0]
  ∧ (update_data inp st).1.cpu_history = pushSlice st.history_size st.cpu_history c
  ∧ (update_data inp st).1.ram_history = pushSlice st.history_size st.ram_history r
  ∧ (update_data inp st).1.net_recv_history
      = pushSlice st.history_size st.net_recv_history ((n.bytes_recv : ℚ) / 1024 / 1024)
  ∧ (update_data inp st).1.net_sent_history
      = pushSlice st.history_size st.net_sent_history ((n.bytes_sent : ℚ) / 1024 / 1024)
  ∧ (update_data inp st).1.fps_history
      = pushSlice st.history_size st.fps_history inp.fps_random := by
  unfold update_data
  simp [hc, hr, hd, hn]

/-- C5 witness: the amended statement instantiated on a fresh monitor whose
disk reading fails: the cycle completes, disk records the sentinel, and all
sibling streams update. -/
theorem C5_update_data_disk_sentinel_witness :
    (update_data c5inp (initState 60)).2 = false
  ∧ (update_data c5inp (initState 60)).1.disk_history = [0]
  ∧ (update_data c5inp (initState 60)).1.cpu_history = [1]
  ∧ (update_data c5inp (initState 60)).1.fps_history = [60] := by
  have h := C5_update_data_disk_sentinel (initState 60) c5inp 1 2 ⟨1048576, 2097152⟩
    rfl rfl rfl rfl
  refine ⟨h.1, ?_, ?_, ?_⟩
  · rw [h.2.1]; decide
  · rw [h.2.2.1]; decide
  · rw [h.2.2.2.2.2.2]; decide

/-- C6: an alert for a metric is created exactly when the latest value is
strictly greater than the metric's threshold and the formatted message (with
its to-the-second timestamp) is not already in the active set; a value equal
to or below the threshold adds nothing, and a strictly greater value with a
fresh message appends exactly that one entry.  `check_alerts` is the four
metric blocks chained in source order, and with the default thresholds a CPU
reading of 85 fires exactly one alert while 75 fires none. -/
theorem C6_alert_firing_iff :
    (∀ (threshold v : ℚ) (m : AlertMsg) (active : List AlertMsg),
      alertStep threshold v m active =
        if threshold < v ∧ m ∉ active then active ++ [m] else active)
  ∧ (∀ (fmt : ℚ → String) (th : AlertThresholds) (t : String)
        (cpu ram disk temp : ℚ) (active : List AlertMsg),
      check_alerts fmt th t cpu ram disk temp active =
        alertStep th.temp temp ⟨t, MetricKind.temp, fmt temp⟩
          (alertStep th.disk disk ⟨t, MetricKind.disk, fmt disk⟩
            (alertStep th.ram ram ⟨t, MetricKind.ram, fmt ram⟩
              (alertStep th.cpu cpu ⟨t, MetricKind.cpu, fmt cpu⟩ active))))
  ∧ (∀ (fmt : ℚ → String) (t : String),
      check_alerts fmt defaultThresholds t 85 0 0 0 []
        = [⟨t, MetricKind.cpu, fmt 85⟩])
  ∧ (∀ (fmt : ℚ → String) (t : String),
      check_alerts fmt defaultThresholds t 75 0 0 0 [] = []) := by
  refine ⟨?_, ?_, ?_, ?_⟩
  · intro threshold v m active
    unfold alertStep
    by_cases h1 : threshold < v
    · by_cases h2 : m ∈ active <;> simp [h1, h2]
    · simp [h1]
  · intro fmt th t cpu ram disk temp active
    rfl
  · intro fmt t
    norm_num [check_alerts, alertStep, defaultThresholds]
  · intro fmt t
    norm_num [check_alerts, alertStep, defaultThresholds]

@[simp] theorem heapPushPop_history_size (st : HeapState) (a : Nat) (v : ℚ) :
    (heapPushPop st a v).history_size = st.history_size := rfl

@[simp] theorem heapPushPop_cpuAddr (st : HeapState) (a : Nat) (v : ℚ) :
    (heapPushPop st a v).cpuAddr = st.cpuAddr := rfl

@[simp] theorem heapPushPop_ramAddr (st : HeapState) (a : Nat) (v : ℚ) :
    (heapPushPop st a v).ramAddr = st.ramAddr := rfl

@[simp] theorem heapPushPop_diskAddr (st : HeapState) (a : Nat) (v : ℚ) :
    (heapPushPop st a v).diskAddr = st.diskAddr := rfl

@[simp] theorem heapPushPop_netRecvAddr (st : HeapState) (a : Nat) (v : ℚ) :
    (heapPushPop st a v).netRecvAddr = st.netRecvAddr := rfl

@[simp] theorem heapPushPop_netSentAddr (st : HeapState) (a : Nat) (v : ℚ) :
    (heapPushPop st a v).netSentAddr = st.netSentAddr := rfl

@[simp] theorem heapPushPop_fpsAddr (st : HeapState) (a : Nat) (v : ℚ) :
    (heapPushPop st a v).fpsAddr = st.fpsAddr := rfl

@[simp] theorem heapPushPop_prev_net_time (st : HeapState) (a : Nat) (v : ℚ) :
    (heapPushPop st a v).prev_net_time = st.prev_net_time := rfl

@[simp] theorem heapPushPop_prev_net_io (st : HeapState) (a : Nat) (v : ℚ) :
    (heapPushPop st a v).prev_net_io = st.prev_net_io := rfl

@[simp] theorem heapPushPop_frame_count (st : HeapState) (a : Nat) (v : ℚ) :
    (heapPushPop st a v).frame_count = st.frame_count := rfl

@[simp] theorem heapPushPop_last_frame_time (st : HeapState) (a : Nat) (v : ℚ) :
    (heapPushPop st a v).last_frame_time = st.last_frame_time := rfl

/-- C7 counterexample: the claim says a previously returned history sequence
is unchanged by later sampling cycles.  `get_cpu_info` hands out the live
list reference, and the next `_update_metrics` cycle appends in place: the
sequence observed through the returned reference changes from `[5]` to
`[5, 42]`. -/
theorem C7_accessor_aliases_live_buffer :
    (update_metricsH c7inp c7st).1.heap (get_cpu_info_history c7st)
      ≠ c7st.heap (get_cpu_info_history c7st)
  ∧ (update_metricsH c7inp c7st).1.heap (get_cpu_info_history c7st) = [5, 42]
  ∧ c7st.heap (get_cpu_info_history c7st) = [5] := by
  decide

/-- C7 amended: the history accessors return the live internal buffer, never
a copy: `get_cpu_info` and `get_network_info` expose the buffer references
themselves, and a later sampling cycle's in-place append/evict at the CPU
buffer is visible through the previously returned reference. -/
theorem C7_update_mutates_returned_reference (st : HeapState) (inp : SampleInput)
    (c : ℚ) (hc : inp.cpu_percent = some c)
    (h1 : st.cpuAddr ≠ st.ramAddr) (h2 : st.cpuAddr ≠ st.diskAddr)
    (h3 : st.cpuAddr ≠ st.netRecvAddr) (h4 : st.cpuAddr ≠ st.netSentAddr)
    (h5 : st.cpuAddr ≠ st.fpsAddr) :
    get_cpu_info_history st = st.cpuAddr
  ∧ get_network_info_recv_history st = st.netRecvAddr
  ∧ (update_metricsH inp st).1.heap (get_cpu_info_history st)
      = pushPop st.history_size (st.heap st.cpuAddr) c := by
  refine ⟨rfl, rfl, ?_⟩
  show (update_metricsH inp st).1.heap st.cpuAddr = _
  unfold update_metricsH
  rcases hr : inp.ram_percent with _ | r <;>
    simp [hc, hr, heapPushPop_heap_self, heapPushPop_heap_ne, h1, h2, h3, h4, h5]
  rcases hd : inp.disk_percent with _ | d <;>
    simp [hd, heapPushPop_heap_self, heapPushPop_heap_ne, h1, h2, h3, h4, h5]
  rcases hn : inp.net with _ | n <;>
    simp [hn, heapPushPop_heap_self, heapPushPop_heap_ne, h1, h2, h3, h4, h5]
  rcases hpt : st.prev_net_time with _ | pt <;>
    simp [hpt, heapPushPop_heap_self, heapPushPop_heap_ne, h1, h2, h3, h4, h5]
  split
  · rcases hpio : st.prev_net_io with _ | pio <;>
      simp [hpio, fpsSectionH_heap_ne, heapPushPop_heap_self, heapPushPop_heap_ne,
        h1, h2, h3, h4, h5]
  · simp [fpsSectionH_heap_ne, heapPushPop_heap_self, heapPushPop_heap_ne,
      h1, h2, h3, h4, h5]

/-- C7 witness for the amended statement, at the concrete fixture. -/
theorem C7_update_mutates_returned_reference_witness :
    (update_metricsH c7inp c7st).1.heap (get_cpu_info_history c7st) = [5, 42] := by
  have h := C7_update_mutates_returned_reference c7st c7inp 42 rfl
    (by decide) (by decide) (by decide) (by decide) (by decide)
  rw [h.2.2]
  decide

theorem notify_update_trace (l : List Callback) :
    (notify_update l).1 = l.map (fun cb => cb.ident) := by
  induction l with
  | nil => rfl
  | cons cb rest ih => simp [notify_update, ih]

/-- C8: `_notify_update` invokes every registered observer exactly once in
registration order — the trace is independent of which observers raise, so a
raising observer never prevents a later one — and `_monitor_loop` on a
running monitor processes every cycle: each cycle's record is either `none`
(`_update_metrics` raised, so notification was skipped by the handler) or
the full in-order trace; no observer behaviour terminates the loop. -/
theorem C8_observer_isolation (cbs : List Callback) (inps : List SampleInput)
    (st : MonitorState)
    (hcb : st.update_callbacks = cbs) (hrun : st.running = true) :
    (notify_update cbs).1 = cbs.map (fun cb => cb.ident)
  ∧ (monitor_loop inps st).2.length = inps.length
  ∧ ∀ cyc ∈ (monitor_loop inps st).2,
      cyc = none ∨ cyc = some (cbs.map (fun cb => cb.ident)) := by
  rcases monitor_loop_cycles inps st hrun with ⟨hlen, hcyc⟩
  refine ⟨notify_update_trace cbs, hlen, ?_⟩
  intro cyc hc
  rcases hcyc cyc hc with h | h
  · exact Or.inl h
  · exact Or.inr (by rw [h, hcb, notify_update_trace])

/-- C8 witness: an always-raising observer registered before a well-behaved
one; both appear in the trace, and a two-cycle loop runs both cycles. -/
theorem C8_observer_isolation_witness :
    (notify_update w8cbs).1 = [1, 2]
  ∧ (monitor_loop [c2inp, c2inp] w8st).2.length = 2 := by
  have h := C8_observer_isolation w8cbs [c2inp, c2inp] w8st rfl rfl
  exact ⟨h.1.trans rfl, h.2.1.trans rfl⟩

/-- C9: `get_processes` returns at most `limit` records, sorted descending by
the chosen field with ties kept in original enumeration order (`pid` tags the
enumeration order), and on cpu values `[10, 50, 30]` with limit 2 it returns
the 50-cpu record then the 30-cpu record. -/
theorem C9_top_processes_ordering (procs : List ProcRec) (limit : Nat)
    (hpid : procs.Pairwise (fun a b => a.pid < b.pid)) :
    (get_processes "cpu" limit procs).length ≤ limit
  ∧ (get_processes "memory" limit procs).length ≤ limit
  ∧ (get_processes "cpu" limit procs).Pairwise
      (fun a b => b.cpu_percent ≤ a.cpu_percent)
  ∧ (get_processes "memory" limit procs).Pairwise
      (fun a b => b.memory_percent ≤ a.memory_percent)
  ∧ (get_processes "cpu" limit procs).Pairwise (keyLex (fun p => p.cpu_percent))
  ∧ (get_processes "memory" limit procs).Pairwise (keyLex (fun p => p.memory_percent))
  ∧ get_processes "cpu" 2 [exProcA, exProcB, exProcC] = [exProcB, exProcC] := by
  have e1 : get_processes "cpu" limit procs
      = (sortDesc (fun p => p.cpu_percent) procs).take limit := by
    unfold get_processes
    rw [if_neg (by decide)]
  have e2 : get_processes "memory" limit procs
      = (sortDesc (fun p => p.memory_percent) procs).take limit := by
    unfold get_processes
    rw [if_pos rfl]
  have hcpu := pairwise_keyLex_sortDesc (fun p => p.cpu_percent) procs hpid
  have hmem := pairwise_keyLex_sortDesc (fun p => p.memory_percent) procs hpid
  have hcpu2 : (get_processes "cpu" limit procs).Pairwise
      (keyLex (fun p => p.cpu_percent)) := by
    rw [e1]
    exact List.Pairwise.sublist (List.take_sublist limit _) hcpu
  have hmem2 : (get_processes "memory" limit procs).Pairwise
      (keyLex (fun p => p.memory_percent)) := by
    rw [e2]
    exact List.Pairwise.sublist (List.take_sublist limit _) hmem
  refine ⟨?_, ?_, ?_, ?_, hcpu2, hmem2, by decide⟩
  · rw [e1, List.length_take]
    exact min_le_left _ _
  · rw [e2, List.length_take]
    exact min_le_left _ _
  · exact hcpu2.imp (fun hab => keyLex_le _ _ _ hab)
  · exact hmem2.imp (fun hab => keyLex_le _ _ _ hab)

/-- C9 witness: the theorem applied to the concrete three-process list. -/
theorem C9_top_processes_ordering_witness :
    get_processes "cpu" 2 [exProcA, exProcB, exProcC] = [exProcB, exProcC] := by
  have h := C9_top_processes_ordering [exProcA, exProcB, exProcC] 2 (by decide)
  exact h.2.2.2.2.2.2

/-- C10: `stop` only clears the `running` flag: every other attribute —
histories, callbacks, `history_size`, `update_interval`, scalar readings and
snapshot fields — is unchanged, so every read accessor returns the same value
after `stop()` as before. -/
theorem C10_stop_only_clears_running (st : MonitorState) :
    (stop st).running = false
  ∧ (stop st).history_size = st.history_size
  ∧ (stop st).update_interval = st.update_interval
  ∧ (stop st).update_callbacks = st.update_callbacks
  ∧ (stop st).cpu_history = st.cpu_history
  ∧ (stop st).ram_history = st.ram_history
  ∧ (stop st).disk_history = st.disk_history
  ∧ (stop st).net_recv_history = st.net_recv_history
  ∧ (stop st).net_sent_history = st.net_sent_history
  ∧ (stop st).fps_history = st.fps_history
  ∧ (stop st).cpu_percent = st.cpu_percent
  ∧ (stop st).ram_percent = st.ram_percent
  ∧ (stop st).disk_percent = st.disk_percent
  ∧ (stop st).net_recv = st.net_recv
  ∧ (stop st).net_sent = st.net_sent
  ∧ (stop st).fps = st.fps
  ∧ (stop st).prev_net_io = st.prev_net_io
  ∧ (stop st).prev_net_time = st.prev_net_time
  ∧ (stop st).frame_count = st.frame_count
  ∧ (stop st).last_frame_time = st.last_frame_time
  ∧ get_cpu_percent (stop st) = get_cpu_percent st
  ∧ get_ram_percent (stop st) = get_ram_percent st
  ∧ get_disk_percent (stop st) = get_disk_percent st
  ∧ get_network_usage (stop st) = get_network_usage st
  ∧ get_fps (stop st) = get_fps st := by
  exact ⟨rfl, rfl, rfl, rfl, rfl, rfl, rfl, rfl, rfl, rfl, rfl, rfl, rfl,
    rfl, rfl, rfl, rfl, rfl, rfl, rfl, rfl, rfl, rfl, rfl, rfl⟩
